import Mathlib

/-
  Verification of the native bootstrap / OS-abstraction boundary declared in
  src/Native/substrate/maxine.h.

  The header declares:
    extern jlong native_nanoTime(void);
    extern jlong native_currentTimeMillis(void);
    extern void *native_executablePath(void);
    extern void  native_exit(int code);
    extern void *native_environment(void);
    extern int maxine(int argc, char *argv[], char *executablePath);
    typedef struct { char *user_name; char *user_home; char *user_dir; } native_props_t;

  Declaration-level facts (the struct layout of native_props_t and the declared
  return types of the primitives) are embedded directly from the header.
  The behaviours of the primitives, of the property capture and of the
  bootstrap entry point are not implemented in the header; they are modelled
  from the specification, each such definition marked `Modelled from the spec`.
-/

namespace Maxine

/-- C return types that occur in the declarations of maxine.h. -/
inductive CType where
  | jlong
  | voidPtr
  | voidTy
  | intTy
  deriving DecidableEq, Repr

/-- A C function declaration: a name together with its declared return type. -/
structure CDecl where
  name : String
  ret : CType
  deriving DecidableEq, Repr

/-- From maxine.h line 31: `extern jlong native_nanoTime(void);`. -/
def native_nanoTime_decl : CDecl := ⟨"native_nanoTime", CType.jlong⟩

/-- From maxine.h line 32: `extern jlong native_currentTimeMillis(void);`. -/
def native_currentTimeMillis_decl : CDecl := ⟨"native_currentTimeMillis", CType.jlong⟩

/-- From maxine.h line 33: `extern void *native_executablePath(void);`. -/
def native_executablePath_decl : CDecl := ⟨"native_executablePath", CType.voidPtr⟩

/-- From maxine.h line 34: `extern void native_exit(int code);`. -/
def native_exit_decl : CDecl := ⟨"native_exit", CType.voidTy⟩

/-- The bit width of the C type jlong (a signed 64-bit integer). -/
def jlongBits : Nat := 64

/-- Interpretation of a count as a signed 64-bit (jlong) value: the count is
reduced modulo 2^64 and residues at or above 2^63 represent negative values. -/
def toSigned64 (n : Nat) : Int :=
  let m : Nat := n % 2 ^ 64
  if m < 2 ^ 63 then (m : Int) else (m : Int) - 2 ^ 64

/-- C struct field types relevant to native_props_t. -/
inductive CFieldType where
  | pointerToChar
  | intField
  | longField
  deriving DecidableEq, Repr

/-- Whether a struct field is a pointer field. -/
def CFieldType.isPointer : CFieldType → Bool
  | CFieldType.pointerToChar => true
  | _ => false

/-- Size in bytes of a struct field, given the platform pointer width. -/
def fieldSize (ptrWidth : Nat) : CFieldType → Nat
  | CFieldType.pointerToChar => ptrWidth
  | CFieldType.intField => 4
  | CFieldType.longField => 8

/-- The layout of native_props_t from maxine.h lines 42-46: three
pointer-to-char fields named user_name, user_home, user_dir, in that order. -/
def native_props_t_layout : List (String × CFieldType) :=
  [("user_name", CFieldType.pointerToChar),
   ("user_home", CFieldType.pointerToChar),
   ("user_dir", CFieldType.pointerToChar)]

/-- The size of a struct with the given field layout, given the pointer width. -/
def structSize (ptrWidth : Nat) (layout : List (String × CFieldType)) : Nat :=
  (layout.map fun f => fieldSize ptrWidth f.2).sum

/-- The value carried by a native_props_t record: one string per field of the
struct declared in maxine.h (a null or absent C string is the empty string). -/
structure native_props_t where
  user_name : String
  user_home : String
  user_dir : String
  deriving DecidableEq, Repr

/-- The fields of a native_props_t record in the declaration order of the
struct in maxine.h: user_name first, then user_home, then user_dir. -/
def fieldsInOrder (r : native_props_t) : List String :=
  [r.user_name, r.user_home, r.user_dir]

/-- Modelled from the spec: the managed runtime core's enumeration
com.sun.max.vm.MaxineVM.NativeJavaProperty, named in the comment above the
struct in maxine.h but not part of this repository's sources; the spec states
it lists exactly the expected native properties, mirroring the struct order. -/
inductive NativeJavaProperty where
  | USER_NAME
  | USER_HOME
  | USER_DIR
  deriving DecidableEq, Repr

/-- The runtime core's enumeration values in their declared order. -/
def NativeJavaProperty.all : List NativeJavaProperty :=
  [NativeJavaProperty.USER_NAME, NativeJavaProperty.USER_HOME, NativeJavaProperty.USER_DIR]

/-- The struct field name corresponding to an enumeration value. -/
def NativeJavaProperty.fieldName : NativeJavaProperty → String
  | NativeJavaProperty.USER_NAME => "user_name"
  | NativeJavaProperty.USER_HOME => "user_home"
  | NativeJavaProperty.USER_DIR => "user_dir"

/-- The position of an enumeration value in the runtime core's enumeration. -/
def NativeJavaProperty.ordinal : NativeJavaProperty → Nat
  | NativeJavaProperty.USER_NAME => 0
  | NativeJavaProperty.USER_HOME => 1
  | NativeJavaProperty.USER_DIR => 2

/-- How the managed runtime core consumes the record: purely positionally, by
reading the field at the enumeration value's ordinal, with no tagging. -/
def consumerRead (r : native_props_t) (p : NativeJavaProperty) : Option String :=
  (fieldsInOrder r)[p.ordinal]?

/-- Modelled from the spec: the OS-level facts visible to this layer — the
monotonic clock count, the wall clock, the executable path as supplied by the
OS (none when the OS cannot supply it), and the three user facts (none when
unavailable). The implementations reading them are not in this repository. -/
structure OSState where
  monoClock : Nat
  wallClock : Int
  execPath : Option String
  userName : Option String
  userHome : Option String
  userDir : Option String
  deriving DecidableEq, Repr

/-- Modelled from the spec: native_nanoTime (monotonic_time) — returns the
count of elapsed time units since an arbitrary fixed reference point; its
implementation is not in this repository. -/
def monotonic_time (s : OSState) : Nat := s.monoClock

/-- Modelled from the spec: native_currentTimeMillis (wall_clock_millis) —
returns milliseconds since the standard epoch; may jump on clock adjustment;
its implementation is not in this repository. -/
def wall_clock_millis (s : OSState) : Int := s.wallClock

/-- Modelled from the spec: native_executablePath (resolve_executable_path) —
returns the absolute path of the running binary, or a null/empty result when
the OS cannot supply it; its implementation is not in this repository. -/
def resolve_executable_path (s : OSState) : Option String := s.execPath

/-- The OS fact corresponding to each native property. -/
def osFact (s : OSState) : NativeJavaProperty → Option String
  | NativeJavaProperty.USER_NAME => s.userName
  | NativeJavaProperty.USER_HOME => s.userHome
  | NativeJavaProperty.USER_DIR => s.userDir

/-- Modelled from the spec: the outcome of a computation at this layer — it
either returns a value to its caller or the process has exited with a code
(the sum-typed outcome the spec's design notes prescribe for the bifurcated
exit path). -/
inductive Outcome (α : Type) where
  | returned : α → Outcome α
  | exited : Int → Outcome α
  deriving DecidableEq, Repr

/-- Sequencing at this layer: once the process has exited, the continuation
never runs. -/
def Outcome.bind {α β : Type} : Outcome α → (α → Outcome β) → Outcome β
  | Outcome.returned a, k => k a
  | Outcome.exited c, _ => Outcome.exited c

/-- The exit code observed by the OS for an outcome, when the process exited. -/
def exitCodeOf {α : Type} : Outcome α → Option Int
  | Outcome.returned _ => none
  | Outcome.exited c => some c

/-- Modelled from the spec: native_exit (terminate_process) — immediately ends
the process with the given exit code and never returns; its implementation is
not in this repository. -/
def terminate_process {α : Type} (code : Int) : Outcome α := Outcome.exited code

/-- Modelled from the spec: capture_native_properties — reads the three
OS-level facts and leaves any unavailable field as an empty string rather than
aborting; its implementation is not in this repository. -/
def capture_native_properties (s : OSState) : native_props_t :=
  { user_name := s.userName.getD ""
    user_home := s.userHome.getD ""
    user_dir := s.userDir.getD "" }

/-- capture_native_properties viewed as a process-level operation: it always
returns a record, never an exit. -/
def capture_native_properties_op (s : OSState) : Outcome native_props_t :=
  Outcome.returned (capture_native_properties s)

/-- resolve_executable_path viewed as a process-level operation: it always
returns (possibly none), never an exit. -/
def resolve_executable_path_op (s : OSState) : Outcome (Option String) :=
  Outcome.returned (resolve_executable_path s)

/-- Modelled from the spec: the managed runtime core (the external maxine
entry point, maxine.h line 37) — given the argument vector, the resolved
executable path and the native property record it either runs to completion
and returns a status code, or terminates the process directly. -/
structure RuntimeCore where
  run : List String → String → native_props_t → Outcome Int

/-- Modelled from the spec: the bootstrap layer's executable path resolution —
use the hint if non-empty, otherwise fall back to resolve_executable_path,
and if both fail proceed with an empty path. -/
def resolve_path_with_hint (hint : String) (s : OSState) : String :=
  if hint = "" then (resolve_executable_path s).getD "" else hint

/-- Modelled from the spec: the bootstrap entry point — resolve the executable
path (hint first, then OS fallback), capture the native properties, invoke the
runtime core with the argument vector, the path and the record, and surface its
outcome; its implementation is not in this repository. -/
def bootstrap (argv : List String) (hint : String) (core : RuntimeCore)
    (s : OSState) : Outcome Int :=
  Outcome.bind (if hint = "" then resolve_executable_path_op s
                else Outcome.returned (some hint)) fun pathOpt =>
  Outcome.bind (capture_native_properties_op s) fun props =>
  core.run argv (pathOpt.getD "") props

/-- The four OS Primitive Provider operations. -/
inductive PrimCall where
  | monoTime
  | wallMillis
  | execPathQ
  | terminate (code : Int)
  deriving DecidableEq, Repr

/-- A value returned by an OS primitive. -/
inductive PrimValue where
  | timeVal (n : Nat)
  | millisVal (i : Int)
  | pathVal (p : Option String)
  | unitVal
  deriving DecidableEq, Repr

/-- Modelled from the spec: running one OS primitive against the OS state;
each call yields an outcome and the (possibly updated) state of this layer.
The implementations are not in this repository. -/
def run_prim : PrimCall → OSState → Outcome PrimValue × OSState
  | PrimCall.monoTime, s => (Outcome.returned (PrimValue.timeVal (monotonic_time s)), s)
  | PrimCall.wallMillis, s => (Outcome.returned (PrimValue.millisVal (wall_clock_millis s)), s)
  | PrimCall.execPathQ, s => (Outcome.returned (PrimValue.pathVal (resolve_executable_path s)), s)
  | PrimCall.terminate code, s => (terminate_process code, s)

/-- Modelled from the spec: passage of OS time between two observations within
one process run — the monotonic counter advances by a non-negative amount while
the wall clock may be adjusted to an arbitrary value. -/
inductive OSStep : OSState → OSState → Prop where
  | tick (s : OSState) (d : Nat) (w : Int) :
      OSStep s { s with monoClock := s.monoClock + d, wallClock := w }

end Maxine

namespace Maxine

theorem bootstrap_run_eq (argv : List String) (hint : String) (core : RuntimeCore)
    (s : OSState) :
    bootstrap argv hint core s =
      core.run argv (resolve_path_with_hint hint s) (capture_native_properties s) := by
  unfold bootstrap resolve_path_with_hint resolve_executable_path_op
    capture_native_properties_op
  by_cases h : hint = "" <;> simp [h, Outcome.bind]

/-- Claim C1: capture_native_properties returns a record with exactly three
string fields in the fixed order user_name, user_home, user_dir; the count is
three and positional consumption by the runtime core's own enumeration reads
exactly the matching OS fact (defaulted to the empty string). -/
theorem capture_native_properties_three_fields_ordered (s : OSState) :
    (fieldsInOrder (capture_native_properties s)).length = 3 ∧
    NativeJavaProperty.all.length = 3 ∧
    native_props_t_layout.map Prod.fst =
      NativeJavaProperty.all.map NativeJavaProperty.fieldName ∧
    (∀ p : NativeJavaProperty,
      consumerRead (capture_native_properties s) p = some ((osFact s p).getD "")) := by
  refine ⟨rfl, rfl, rfl, ?_⟩
  intro p
  cases p <;> rfl

/-- Claim C2: for every valid argument vector (at least the program name),
whenever the runtime core returns a status, bootstrap surfaces exactly that
status, unchanged. -/
theorem bootstrap_propagates_core_status (argv : List String) (hint : String)
    (core : RuntimeCore) (s : OSState) (status : Int)
    (hargs : 1 ≤ argv.length)
    (hcore : core.run argv (resolve_path_with_hint hint s)
      (capture_native_properties s) = Outcome.returned status) :
    bootstrap argv hint core s = Outcome.returned status := by
  rw [bootstrap_run_eq, hcore]

theorem bootstrap_propagates_core_status_witness :
    bootstrap ["prog"] "" ⟨fun _ _ _ => Outcome.returned 7⟩
      (OSState.mk 0 0 none none none none) = Outcome.returned 7 :=
  bootstrap_propagates_core_status ["prog"] "" ⟨fun _ _ _ => Outcome.returned 7⟩
    (OSState.mk 0 0 none none none none) 7 (by decide) rfl

/-- Claim C3: capture_native_properties never aborts the process, and each
field of the returned record is the OS-derived string when available and the
empty string when the fact is unavailable — never absent. -/
theorem capture_native_properties_defaults_empty (s : OSState) :
    (capture_native_properties s).user_name = s.userName.getD "" ∧
    (capture_native_properties s).user_home = s.userHome.getD "" ∧
    (capture_native_properties s).user_dir = s.userDir.getD "" ∧
    (∀ c : Int, capture_native_properties_op s ≠ Outcome.exited c) := by
  refine ⟨rfl, rfl, rfl, ?_⟩
  intro c h
  exact Outcome.noConfusion h

/-- Claim C4: resolve_executable_path never causes a process abort — it yields
either the OS-supplied path or none — and bootstrap proceeds to invoke the
runtime core in either case (here with no hint, so the fallback is exercised). -/
theorem resolve_executable_path_no_abort (s : OSState) (argv : List String)
    (core : RuntimeCore) :
    (∀ c : Int, resolve_executable_path_op s ≠ Outcome.exited c) ∧
    resolve_executable_path s = s.execPath ∧
    bootstrap argv "" core s =
      core.run argv ((resolve_executable_path s).getD "")
        (capture_native_properties s) := by
  refine ⟨?_, rfl, ?_⟩
  · intro c h
    exact Outcome.noConfusion h
  · rw [bootstrap_run_eq]
    rfl

/-- Claim C5: the bootstrap path-resolution rule — the hint when non-empty,
otherwise the OS lookup, and the empty path when both fail — and in every case
bootstrap proceeds to the runtime core (the failure is not fatal). -/
theorem bootstrap_path_resolution_rule (argv : List String) (hint : String)
    (core : RuntimeCore) (s : OSState) :
    bootstrap argv hint core s =
      core.run argv
        (if hint = "" then (s.execPath.getD "") else hint)
        (capture_native_properties s) := by
  rw [bootstrap_run_eq]
  unfold resolve_path_with_hint resolve_executable_path
  by_cases h : hint = "" <;> simp [h]

/-- Claim C6: terminate_process never returns control to its caller — any
continuation sequenced after it never runs — and the OS-observed exit code is
exactly the given code. -/
theorem terminate_process_never_returns (code : Int) (k : Int → Outcome Int) :
    Outcome.bind (terminate_process code) k = Outcome.exited code ∧
    (∀ a : Int, terminate_process (α := Int) code ≠ Outcome.returned a) ∧
    exitCodeOf (terminate_process (α := Int) code) = some code := by
  refine ⟨rfl, ?_, rfl⟩
  intro a h
  exact Outcome.noConfusion h

/-- Claim C7: across any passage of OS time within one process run, including
arbitrary wall-clock adjustments, the monotonic time observed later is greater
than or equal to the one observed earlier. -/
theorem monotonic_time_nondecreasing (s t : OSState)
    (h : Relation.ReflTransGen OSStep s t) :
    monotonic_time s ≤ monotonic_time t := by
  induction h with
  | refl => exact le_refl _
  | tail _ hstep ih =>
      cases hstep with
      | tick d w => exact le_trans ih (Nat.le_add_right _ _)

theorem monotonic_time_nondecreasing_witness :
    monotonic_time (OSState.mk 0 0 none none none none) ≤
      monotonic_time (OSState.mk 3 5 none none none none) :=
  monotonic_time_nondecreasing _ _
    (Relation.ReflTransGen.single
      (OSStep.tick (OSState.mk 0 0 none none none none) 3 5))

/-- Claim C8: each of the four OS primitives leaves the state of this layer
unchanged, repeating a call is indistinguishable from the first call, and only
the termination primitive ends the process (with exactly its code) — the other
three are side-effect-free and never exit. -/
theorem os_primitives_pure_and_idempotent (p : PrimCall) (s : OSState) :
    (run_prim p s).2 = s ∧
    run_prim p (run_prim p s).2 = run_prim p s ∧
    ((∃ code : Int, p = PrimCall.terminate code ∧
        (run_prim p s).1 = Outcome.exited code) ∨
      (∀ c : Int, (run_prim p s).1 ≠ Outcome.exited c)) := by
  cases p with
  | monoTime =>
      exact ⟨rfl, rfl, Or.inr fun c h => Outcome.noConfusion h⟩
  | wallMillis =>
      exact ⟨rfl, rfl, Or.inr fun c h => Outcome.noConfusion h⟩
  | execPathQ =>
      exact ⟨rfl, rfl, Or.inr fun c h => Outcome.noConfusion h⟩
  | terminate code =>
      exact ⟨rfl, rfl, Or.inl ⟨code, rfl, rfl⟩⟩

/-- Claim C9: the native_props_t struct consists of exactly three
pointer-to-string fields and nothing else — no count, tag, length or version
field — its size is exactly three pointer widths, and the record carries no
information beyond its three strings (it is in bijection with a bare triple),
so a layout divergence is not detectable from the record itself. -/
theorem native_props_record_layout :
    native_props_t_layout.length = 3 ∧
    (native_props_t_layout.all fun f => (f.2).isPointer) = true ∧
    (native_props_t_layout.map Prod.fst).contains "count" = false ∧
    (native_props_t_layout.map Prod.fst).contains "tag" = false ∧
    (native_props_t_layout.map Prod.fst).contains "length" = false ∧
    (native_props_t_layout.map Prod.fst).contains "version" = false ∧
    (∀ w : Nat, structSize w native_props_t_layout = 3 * w) ∧
    Function.Bijective
      (fun t : String × String × String => native_props_t.mk t.1 t.2.1 t.2.2) := by
  refine ⟨rfl, by decide, by decide, by decide, by decide, by decide, ?_, ?_, ?_⟩
  · intro w
    simp [structSize, native_props_t_layout, fieldSize]
    ring
  · rintro ⟨a1, a2, a3⟩ ⟨b1, b2, b3⟩ h
    simp only [native_props_t.mk.injEq] at h
    simp [h.1, h.2.1, h.2.2]
  · intro r
    exact ⟨(r.user_name, r.user_home, r.user_dir), rfl⟩

/-- Claim C10: native_currentTimeMillis is declared to return jlong, the same
64-bit signed width as native_nanoTime; values of that type are interpreted
modulo 2^64 as signed, bounded by the signed 64-bit range, and an extreme count
such as 2^63 wraps to a negative value rather than widening. -/
theorem wall_clock_millis_jlong_width :
    native_currentTimeMillis_decl.ret = CType.jlong ∧
    native_nanoTime_decl.ret = CType.jlong ∧
    native_currentTimeMillis_decl.ret = native_nanoTime_decl.ret ∧
    jlongBits = 64 ∧
    (∀ n : Nat, toSigned64 n = toSigned64 (n % 2 ^ 64)) ∧
    (∀ n : Nat, -(2 ^ 63) ≤ toSigned64 n ∧ toSigned64 n < 2 ^ 63) ∧
    toSigned64 (2 ^ 63) = -(2 ^ 63) := by
  refine ⟨rfl, rfl, rfl, rfl, ?_, ?_, ?_⟩
  · intro n
    unfold toSigned64
    rw [Nat.mod_mod_of_dvd n (dvd_refl (2 ^ 64))]
  · intro n
    unfold toSigned64
    have hlt : n % 2 ^ 64 < 2 ^ 64 := Nat.mod_lt _ (by positivity)
    by_cases h : n % 2 ^ 64 < 2 ^ 63
    · simp only [h, if_true]
      constructor
      · exact le_trans (by norm_num) (Int.ofNat_nonneg _)
      · exact_mod_cast h
    · simp only [h, if_false]
      push_neg at h
      constructor
      · have : (2 ^ 63 : Int) ≤ (n % 2 ^ 64 : Nat) := by exact_mod_cast h
        omega
      · have : ((n % 2 ^ 64 : Nat) : Int) < 2 ^ 64 := by exact_mod_cast hlt
        omega
  · unfold toSigned64
    norm_num

end Maxine
